import Mathlib

/-!
Verification of `src/check_excel.py`, a diagnostic script that checks a
spreadsheet path, loads the workbook, and for every sheet prints the sheet
name, the reported extents, and the contents of the first six rows.

The embedding is shallow: each `print` call of the script becomes one
structured `Line`, with `Line.render` giving the exact text the f-string
would produce; the file system is an explicit `FileEntry` (missing file,
file that fails to load, or a loadable workbook); the `try/except` around
loading is an `Except` computation whose error branch the caller folds into
a single printed error line.
-/

namespace CheckExcel

/-- A non-empty scalar cell value as returned by the spreadsheet library:
a piece of text or an integer (other scalar kinds behave like text once
converted with `str`). -/
inductive Value
  | vStr (s : String)
  | vInt (n : Int)
deriving DecidableEq, Repr

/-- Python `str()` applied to a cell value. -/
def Value.pyStr : Value → String
  | .vStr s => s
  | .vInt n => toString n

/-- A worksheet: its name, the reported extents `max_row` and `max_column`,
and the 1-based cell grid; `cell r c = none` models an empty cell
(`sheet.cell(row=r, column=c).value is None`). -/
structure Sheet where
  name : String
  max_row : Nat
  max_column : Nat
  cell : Nat → Nat → Option Value

/-- A workbook is its sheets in `sheetnames` order (sheet names are unique
in a workbook, so iterating `workbook.sheetnames` and indexing
`workbook[sheet_name]` visits exactly these sheets in this order). -/
abbrev Workbook := List Sheet

/-- What the file system holds at the given path: nothing, an existing file
on which `load_workbook` raises with message `err`, or a loadable workbook. -/
inductive FileEntry
  | missing
  | corrupt (err : String)
  | workbook (wb : Workbook)

/-- `os.path.exists(file_path)`. -/
def pathExists : FileEntry → Bool
  | .missing => false
  | _ => true

/-- One `print` call of the script, as structured output. -/
inductive Line
  | notFound (path : String)
  | fileHeader (path : String)
  | sheetHeader (name : String)
  | maxRowLine (n : Nat)
  | maxColLine (n : Nat)
  | rowLine (r : Nat) (cells : List String)
  | errLine (msg : String)
deriving DecidableEq, Repr

/-- The exact text each `print` call writes (the sheet header f-string
begins with an explicit newline, as in the source). -/
def Line.render : Line → String
  | .notFound p => "文件不存在: " ++ p
  | .fileHeader p => "Excel 文件: " ++ p
  | .sheetHeader n => "\n工作表: " ++ n
  | .maxRowLine n => "最大行数: " ++ toString n
  | .maxColLine n => "最大列数: " ++ toString n
  | .rowLine r cs => "  行 " ++ toString r ++ ": " ++ String.intercalate " | " cs
  | .errLine m => "读取 Excel 文件时发生错误: " ++ m

/-- `str(cell_value) if cell_value is not None else "NULL"`. -/
def renderCell : Option Value → String
  | none => "NULL"
  | some v => v.pyStr

/-- The inner column loop together with the row `print`:
`for col in range(1, sheet.max_column + 1)` collects the rendered cells of
row `r` in column order, and the row is printed with them joined later by
`" | "` (see `Line.render`). -/
def dumpRow (s : Sheet) (r : Nat) : Line :=
  Line.rowLine r ((List.range' 1 s.max_column).map (fun c => renderCell (s.cell r c)))

/-- The body of the per-sheet loop: the sheet header, the two extent lines,
then one row line for each `row in range(1, min(7, sheet.max_row + 1))`,
i.e. for the rows `1 .. min 6 max_row` in ascending order. -/
def dumpSheet (s : Sheet) : List Line :=
  Line.sheetHeader s.name :: Line.maxRowLine s.max_row :: Line.maxColLine s.max_column ::
    (List.range' 1 (min 6 s.max_row)).map (dumpRow s)

/-- `openpyxl.load_workbook(file_path)`: raises (here: `Except.error`) on a
missing or unloadable file, returns the workbook otherwise. -/
def load_workbook : FileEntry → Except String Workbook
  | .missing => .error "no such file or directory"
  | .corrupt e => .error e
  | .workbook wb => .ok wb

/-- The body of the `try` block: load the workbook (which may raise), then
print the file header and every sheet's dump. -/
def tryBody (path : String) (fe : FileEntry) : Except String (List Line) :=
  match load_workbook fe with
  | .error e => .error e
  | .ok wb => .ok (Line.fileHeader path :: wb.flatMap dumpSheet)

/-- `check_excel_content(file_path)`: if the path does not exist, print the
not-found line and return; otherwise run the `try` block, folding any raised
error into the single `except` error line. The result is the list of
`print` calls the function performs. -/
def check_excel_content (path : String) (fe : FileEntry) : List Line :=
  if !pathExists fe then
    [Line.notFound path]
  else
    match tryBody path fe with
    | .ok ls => ls
    | .error e => [Line.errLine e]

/-- The hard-coded path of the `__main__` block. -/
def excel_path : String := "Assets/ExcelConfigs/Example.xlsx"

/-- The `__main__` block: whatever the command-line arguments and the
environment are, it checks the hard-coded `excel_path` against the file
system. -/
def mainScript (argv : List String) (env : String → Option String)
    (fs : String → FileEntry) : List Line :=
  check_excel_content excel_path (fs excel_path)

/-- Recognizes a printed row line. -/
def Line.isRowLine : Line → Bool
  | .rowLine _ _ => true
  | _ => false

/-- Recognizes a printed sheet header. -/
def Line.isSheetHeader : Line → Bool
  | .sheetHeader _ => true
  | _ => false

/-- Recognizes the printed error line of the `except` branch. -/
def Line.isErrLine : Line → Bool
  | .errLine _ => true
  | _ => false

/-- Recognizes any line of a sheet dump: sheet header, either extent line,
or a row line. -/
def Line.isSheetOutput : Line → Bool
  | .sheetHeader _ => true
  | .maxRowLine _ => true
  | .maxColLine _ => true
  | .rowLine _ _ => true
  | _ => false

/-- The sheet names carried by the sheet headers of an output, in order. -/
def headerNames (ls : List Line) : List String :=
  ls.filterMap (fun l => match l with | .sheetHeader n => some n | _ => none)

/-- The concrete 3 × 2 sheet of the spec's scenario: (1,1)="Name",
(1,2)="Age", (2,1)="Alice", (2,2)=30, row 3 entirely empty. -/
def exampleSheet : Sheet where
  name := "Sheet1"
  max_row := 3
  max_column := 2
  cell := fun r c =>
    if r = 1 ∧ c = 1 then some (.vStr "Name")
    else if r = 1 ∧ c = 2 then some (.vStr "Age")
    else if r = 2 ∧ c = 1 then some (.vStr "Alice")
    else if r = 2 ∧ c = 2 then some (.vInt 30)
    else none

theorem filter_isRowLine_map_dumpRow (s : Sheet) (rs : List Nat) :
    (rs.map (dumpRow s)).filter Line.isRowLine = rs.map (dumpRow s) := by
  induction rs with
  | nil => rfl
  | cons a l ih => simp [dumpRow, Line.isRowLine, ih]

theorem countP_isSheetHeader_map_dumpRow (s : Sheet) (rs : List Nat) :
    (rs.map (dumpRow s)).countP Line.isSheetHeader = 0 := by
  induction rs with
  | nil => rfl
  | cons a l ih => simp [List.countP_cons, dumpRow, Line.isSheetHeader, ih]

theorem headerNames_map_dumpRow (s : Sheet) (rs : List Nat) :
    headerNames (rs.map (dumpRow s)) = [] := by
  induction rs with
  | nil => rfl
  | cons a l ih =>
    show headerNames (l.map (dumpRow s)) = []
    exact ih

theorem headerNames_append (l₁ l₂ : List Line) :
    headerNames (l₁ ++ l₂) = headerNames l₁ ++ headerNames l₂ := by
  simp [headerNames, List.filterMap_append]

theorem headerNames_dumpSheet (s : Sheet) :
    headerNames (dumpSheet s) = [s.name] := by
  show s.name :: headerNames ((List.range' 1 (min 6 s.max_row)).map (dumpRow s))
      = [s.name]
  rw [headerNames_map_dumpRow]

theorem countP_isSheetHeader_dumpSheet (s : Sheet) :
    (dumpSheet s).countP Line.isSheetHeader = 1 := by
  show List.countP Line.isSheetHeader
      (Line.sheetHeader s.name :: Line.maxRowLine s.max_row
        :: Line.maxColLine s.max_column
        :: (List.range' 1 (min 6 s.max_row)).map (dumpRow s)) = 1
  rw [List.countP_cons_of_pos _ _ (by simp [Line.isSheetHeader]),
      List.countP_cons_of_neg _ _ (by simp [Line.isSheetHeader]),
      List.countP_cons_of_neg _ _ (by simp [Line.isSheetHeader]),
      countP_isSheetHeader_map_dumpRow]

/-- C1: the row lines of a sheet dump are exactly the dumps of rows
`1 .. min 6 max_row` in ascending order, so their number is
`min 6 max_row`: `max_row` of them when `max_row < 6`, six otherwise. -/
theorem rows_printed_eq_min_six_max_row (s : Sheet) :
    (dumpSheet s).filter Line.isRowLine
      = (List.range' 1 (min 6 s.max_row)).map (dumpRow s)
    ∧ (dumpSheet s).countP Line.isRowLine = min 6 s.max_row := by
  constructor
  · simp [dumpSheet, Line.isRowLine, filter_isRowLine_map_dumpRow]
  · have h := filter_isRowLine_map_dumpRow s (List.range' 1 (min 6 s.max_row))
    simp [dumpSheet, List.countP_eq_length_filter, Line.isRowLine, h]

/-- C2: an empty cell renders as the literal `"NULL"`, a non-empty cell as
the string form of its value; a printed row carries the rendered cells of
columns `1 .. max_column`, and its text joins them with the separator
`" | "`. -/
theorem cells_render_null_or_str :
    renderCell none = "NULL"
    ∧ (∀ v : Value, renderCell (some v) = v.pyStr)
    ∧ (∀ (s : Sheet) (r : Nat),
        dumpRow s r
          = Line.rowLine r ((List.range' 1 s.max_column).map
              (fun c => renderCell (s.cell r c))))
    ∧ (∀ (r : Nat) (cs : List String),
        (Line.rowLine r cs).render
          = "  行 " ++ toString r ++ ": " ++ String.intercalate " | " cs) :=
  ⟨rfl, fun _ => rfl, fun _ _ => rfl, fun _ _ => rfl⟩

/-- C3: on a missing path the function prints exactly the not-found line —
no sheet output at all — and returns. -/
theorem missing_path_prints_not_found (path : String) :
    check_excel_content path .missing = [Line.notFound path]
    ∧ (check_excel_content path .missing).countP Line.isSheetOutput = 0 :=
  ⟨rfl, rfl⟩

/-- C4: a failure raised while loading the workbook is caught; the function
prints the single error line, whose text carries the error detail, and
returns normally. -/
theorem load_error_caught (path e : String) :
    tryBody path (.corrupt e) = .error e
    ∧ check_excel_content path (.corrupt e) = [Line.errLine e]
    ∧ (Line.errLine e).render = "读取 Excel 文件时发生错误: " ++ e :=
  ⟨rfl, rfl, rfl⟩

/-- C5: an existing file whose load fails yields exactly one error line and
zero sheet-dump lines (no sheet header, extent, or row line). -/
theorem corrupt_file_single_error_no_dump (path e : String) :
    pathExists (.corrupt e) = true
    ∧ (check_excel_content path (.corrupt e)).countP Line.isErrLine = 1
    ∧ (check_excel_content path (.corrupt e)).countP Line.isSheetOutput = 0 :=
  ⟨rfl, rfl, rfl⟩

/-- C6: a workbook that loads prints the file header followed by one dump
per sheet: exactly `wb.length` sheet headers, carrying the sheet names in
order, each followed by the sheet's `max_row` and `max_column` lines. -/
theorem valid_workbook_dump_structure (path : String) (wb : Workbook) :
    check_excel_content path (.workbook wb)
      = Line.fileHeader path :: wb.flatMap dumpSheet
    ∧ (check_excel_content path (.workbook wb)).countP Line.isSheetHeader
        = wb.length
    ∧ headerNames (check_excel_content path (.workbook wb)) = wb.map Sheet.name
    ∧ (∀ s : Sheet, dumpSheet s
        = Line.sheetHeader s.name :: Line.maxRowLine s.max_row
            :: Line.maxColLine s.max_column
            :: (List.range' 1 (min 6 s.max_row)).map (dumpRow s)) := by
  refine ⟨rfl, ?_, ?_, fun _ => rfl⟩
  · show (Line.fileHeader path :: wb.flatMap dumpSheet).countP Line.isSheetHeader
        = wb.length
    rw [List.countP_cons_of_neg _ _ (by simp [Line.isSheetHeader])]
    induction wb with
    | nil => rfl
    | cons s l ih =>
      rw [List.flatMap_cons, List.countP_append, ih,
        countP_isSheetHeader_dumpSheet, List.length_cons]
      omega
  · show headerNames (wb.flatMap dumpSheet) = wb.map Sheet.name
    induction wb with
    | nil => rfl
    | cons s l ih =>
      rw [List.flatMap_cons, headerNames_append, headerNames_dumpSheet, ih,
        List.map_cons]
      rfl

/-- C7: on the concrete 3 × 2 example workbook, the output is the file
header, the sheet header for "Sheet1", the extent lines rendering as
"最大行数: 3" and "最大列数: 2", and the three row lines rendering as
"  行 1: Name | Age", "  行 2: Alice | 30", "  行 3: NULL | NULL". -/
theorem example_workbook_output :
    check_excel_content excel_path (.workbook [exampleSheet])
      = [Line.fileHeader excel_path, Line.sheetHeader "Sheet1",
         Line.maxRowLine 3, Line.maxColLine 2,
         Line.rowLine 1 ["Name", "Age"], Line.rowLine 2 ["Alice", "30"],
         Line.rowLine 3 ["NULL", "NULL"]]
    ∧ (Line.maxRowLine 3).render = "最大行数: 3"
    ∧ (Line.maxColLine 2).render = "最大列数: 2"
    ∧ (Line.rowLine 1 ["Name", "Age"]).render = "  行 1: Name | Age"
    ∧ (Line.rowLine 2 ["Alice", "30"]).render = "  行 2: Alice | 30"
    ∧ (Line.rowLine 3 ["NULL", "NULL"]).render = "  行 3: NULL | NULL" := by
  refine ⟨by decide, rfl, rfl, rfl, rfl, rfl⟩

/-- C8: the `__main__` block checks exactly the hard-coded path and its
behaviour does not depend on command-line arguments or environment. -/
theorem script_ignores_argv_and_env (argv argv₂ : List String)
    (env env₂ : String → Option String) (fs : String → FileEntry) :
    mainScript argv env fs = check_excel_content excel_path (fs excel_path)
    ∧ mainScript argv env fs = mainScript argv₂ env₂ fs :=
  ⟨rfl, rfl⟩

/-- C9: `check_excel_content` always returns a list of printed lines: the
missing-path branch returns the not-found line, and otherwise the `try`
body either succeeds (its lines are returned) or raises an error that the
handler folds into the single error line — no exception escapes. -/
theorem no_exception_escapes (path : String) (fe : FileEntry) :
    (pathExists fe = false ∧ check_excel_content path fe = [Line.notFound path])
    ∨ (∃ e, tryBody path fe = .error e
        ∧ check_excel_content path fe = [Line.errLine e])
    ∨ (∃ ls, tryBody path fe = .ok ls ∧ check_excel_content path fe = ls) := by
  cases fe with
  | missing => exact .inl ⟨rfl, rfl⟩
  | corrupt e => exact .inr (.inl ⟨e, rfl, rfl⟩)
  | workbook wb => exact .inr (.inr ⟨_, rfl, rfl⟩)

/-- C10: every row line appearing in a sheet dump carries exactly
`max_column` rendered cells, those of columns `1 .. max_column` in
ascending order (an empty cell still contributes its "NULL" entry). -/
theorem row_line_has_max_column_cells (s : Sheet) (r : Nat) (cs : List String)
    (h : Line.rowLine r cs ∈ dumpSheet s) :
    cs = (List.range' 1 s.max_column).map (fun c => renderCell (s.cell r c))
    ∧ cs.length = s.max_column := by
  simp only [dumpSheet, List.mem_cons, List.mem_map] at h
  rcases h with h | h | h | ⟨r', _, h⟩
  · cases h
  · cases h
  · cases h
  · simp only [dumpRow, Line.rowLine.injEq] at h
    obtain ⟨hr, hcs⟩ := h
    subst hr
    refine ⟨hcs.symm, ?_⟩
    rw [← hcs]
    simp [List.length_range']

/-- Witness for C10 at a concrete input: the all-empty row 3 of the example
sheet appears in its dump with exactly `max_column = 2` cells. -/
theorem row_line_has_max_column_cells_witness :
    Line.rowLine 3 ["NULL", "NULL"] ∈ dumpSheet exampleSheet
    ∧ (["NULL", "NULL"] : List String).length = exampleSheet.max_column :=
  ⟨by decide,
   (row_line_has_max_column_cells exampleSheet 3 ["NULL", "NULL"] (by decide)).2⟩

end CheckExcel
